import Mathlib

/-!
Shallow embedding of the authentication and session-lifecycle subsystem of
the rugalika-backend repository: the one-time-code (OTP) store
(`src/models/OTPCode.model.ts`), the token blacklist
(`src/models/TokenBlacklist.model.ts`), the `AuthService` class
(`src/services/auth.service.ts`) and the `authenticate` middleware
(`src/middleware/auth.middleware.ts`).

Modelling conventions:
* Wall-clock instants are natural numbers (milliseconds since the epoch);
  the JWT `exp` claim, which the source stores in seconds and converts with
  `new Date(decoded.exp * 1000)`, is kept in milliseconds throughout so that
  all comparisons use one unit.
* The document database is a triple of lists (OTP records, users, blacklist
  entries); `findOne` is `List.find?` (first match), `deleteMany` is
  `List.filter` with the negated filter, and saving a modified document
  replaces it in place.
* `jwt.sign` produces an abstract `Token` recording the payload, the signing
  secret and the expiry; `jwt.verify` succeeds exactly when the secret
  matches and the expiry has not passed; `jwt.decode` reads the payload and
  expiry without looking at the secret.  A `RawToken` is either such a
  well-formed token or an undecodable string.
* The random 6-digit code drawn by `Math.floor(100000 + Math.random() *
  900000).toString()` is supplied by the caller as an explicit argument.
-/

namespace Rugalika

/-- Model of JavaScript's `String.prototype.toLowerCase` (the emails
handled by the service are ASCII, where it agrees with per-character
lowercasing). -/
def toLowerStr (s : String) : String := ⟨s.data.map Char.toLower⟩

/-- One document of the `otpcodes` collection (`OTPCode.model.ts`):
email, 6-digit code, expiry instant and the consumed flag `verified`. -/
structure OTPRecord where
  email : String
  code : String
  expiresAt : Nat
  verified : Bool
deriving DecidableEq

/-- A user document as read by the auth service: `_id`, email, role,
`status` (`"active"` or not), last-login instant and email-verified flag. -/
structure UserRec where
  id : String
  email : String
  role : String
  status : String
  lastLogin : Option Nat
  emailVerified : Bool
deriving DecidableEq

/-- The claims object passed to `jwt.sign`: `userId`, `email`, `role`
(absent in refresh tokens) and the `type` discriminator string. -/
structure TokenPayload where
  userId : String
  email : String
  role : Option String
  type : String
deriving DecidableEq

/-- An abstract signed JWT: payload, signing secret, issuance and expiry
instants.  Two tokens are equal exactly when their serialized strings
would be equal. -/
structure Token where
  payload : TokenPayload
  secret : String
  iat : Nat
  exp : Nat
deriving DecidableEq

/-- A token string as received from a client: either a well-formed signed
token or garbage that `jwt.decode` rejects. -/
inductive RawToken where
  | wellFormed (t : Token)
  | garbage (s : String)
deriving DecidableEq

/-- `jwt.decode`: reads the token without verifying the signature. -/
def jwtDecode : RawToken → Option Token
  | .wellFormed t => some t
  | .garbage _ => none

/-- `jwt.verify(token, secret)` evaluated at instant `now`: checks the
signature (secret equality in the model) and the expiry. -/
def jwtVerify (tok : RawToken) (secret : String) (now : Nat) :
    Except String TokenPayload :=
  match tok with
  | .garbage _ => .error "jwt malformed"
  | .wellFormed t =>
      if t.secret ≠ secret then .error "invalid signature"
      else if t.exp ≤ now then .error "jwt expired"
      else .ok t.payload

/-- One document of the `tokenblacklists` collection
(`TokenBlacklist.model.ts`): the raw token string (unique index) and the
token's original expiry. -/
structure BlacklistEntry where
  token : RawToken
  expiresAt : Nat
deriving DecidableEq

/-- The backing storage shared by the auth service and the middleware. -/
structure AuthState where
  otps : List OTPRecord
  users : List UserRec
  blacklist : List BlacklistEntry
deriving DecidableEq

/-- The `AuthService` constructor configuration: the two JWT secrets and
the two token lifetimes (`JWT_EXPIRE` default 24 h, `JWT_REFRESH_EXPIRE`
default 7 d), lifetimes in milliseconds. -/
structure AuthConfig where
  jwtSecret : String
  jwtRefreshSecret : String
  jwtExpire : Nat
  jwtRefreshExpire : Nat
deriving DecidableEq

/-- The `IAuthResponse` interface (`src/types/index.ts`): `success`,
optional access `token`, optional `user`, and `message`.  The interface
has no refresh-token field. -/
structure IAuthResponse where
  success : Bool
  token : Option Token
  user : Option UserRec
  message : String
deriving DecidableEq

/-- The `{ success, message }` envelope returned by `sendOTPCode` and
`logout`. -/
structure SimpleResult where
  success : Bool
  message : String
deriving DecidableEq

/-- `expiresAt = new Date(Date.now() + 5 * 60 * 1000)`. -/
def otpLifetime : Nat := 5 * 60 * 1000

/-- The mongo filter `{ email, code, verified: false, expiresAt: { $gt:
new Date() } }` used by `AuthService.verifyOTPCode`. -/
def otpMatches (email code : String) (now : Nat) (r : OTPRecord) : Bool :=
  r.email == email && r.code == code && r.verified == false &&
    decide (now < r.expiresAt)

/-- Marking the document returned by `findOne` as consumed and saving it:
the first record satisfying the filter is replaced by its
`verified := true` copy. -/
def setVerifiedFirst (p : OTPRecord → Bool) : List OTPRecord → List OTPRecord
  | [] => []
  | r :: rs =>
      if p r then { r with verified := true } :: rs
      else r :: setVerifiedFirst p rs

/-- `user.save()`: the stored document with the same `_id` is replaced. -/
def saveUser (u : UserRec) (users : List UserRec) : List UserRec :=
  users.map fun v => if v.id == u.id then u else v

/-- `AuthService.generateAccessToken`: payload `{ userId, email, role,
type: 'access' }`, signed with `jwtSecret`, lifetime `jwtExpire`. -/
def generateAccessToken (cfg : AuthConfig) (user : UserRec) (now : Nat) :
    Token :=
  { payload := { userId := user.id, email := user.email,
                 role := some user.role, type := "access" }
    secret := cfg.jwtSecret
    iat := now
    exp := now + cfg.jwtExpire }

/-- `AuthService.generateRefreshToken`: payload `{ userId, email,
type: 'refresh' }` (no role claim), signed with `jwtRefreshSecret`,
lifetime `jwtRefreshExpire`. -/
def generateRefreshToken (cfg : AuthConfig) (user : UserRec) (now : Nat) :
    Token :=
  { payload := { userId := user.id, email := user.email,
                 role := none, type := "refresh" }
    secret := cfg.jwtRefreshSecret
    iat := now
    exp := now + cfg.jwtRefreshExpire }

/-- `AuthService.verifyAccessToken`: `jwt.verify` with the access secret;
any failure is rethrown as `'Invalid or expired token'`. -/
def verifyAccessToken (cfg : AuthConfig) (tok : RawToken) (now : Nat) :
    Except String TokenPayload :=
  match jwtVerify tok cfg.jwtSecret now with
  | .ok p => .ok p
  | .error _ => .error "Invalid or expired token"

/-- `AuthService.verifyRefreshToken`: `jwt.verify` with the refresh secret;
any failure is rethrown as `'Invalid or expired refresh token'`. -/
def verifyRefreshToken (cfg : AuthConfig) (tok : RawToken) (now : Nat) :
    Except String TokenPayload :=
  match jwtVerify tok cfg.jwtRefreshSecret now with
  | .ok p => .ok p
  | .error _ => .error "Invalid or expired refresh token"

/-- `AuthService.sendOTPCode(email)`: user lookup by lowercased email,
active check, `OTPCode.deleteMany({ email, verified: false })`, then
creation of the new record with a 5-minute expiry.  `code` is the random
6-digit draw. -/
def sendOTPCode (email code : String) (now : Nat) (st : AuthState) :
    SimpleResult × AuthState :=
  match st.users.find? (fun u => u.email == toLowerStr email) with
  | none =>
      ({ success := false
         message := "No account found with this email address" }, st)
  | some user =>
      if user.status ≠ "active" then
        ({ success := false
           message := "Account is inactive. Please contact administrator." }, st)
      else
        let remaining := st.otps.filter
          (fun r => !(r.email == email && r.verified == false))
        let fresh : OTPRecord :=
          { email := email, code := code,
            expiresAt := now + otpLifetime, verified := false }
        ({ success := true, message := "OTP code sent to your email address" },
         { st with otps := remaining ++ [fresh] })

/-- `AuthService.verifyOTPCode(email, code)`: OTP lookup, user lookup,
active check, marking the OTP consumed, last-login/email-verified update,
token generation.  The generated refresh token is bound to a local that
the source never uses again, mirrored here as `_refreshToken`. -/
def verifyOTPCode (cfg : AuthConfig) (email code : String) (now : Nat)
    (st : AuthState) : IAuthResponse × AuthState :=
  match st.otps.find? (otpMatches email code now) with
  | none =>
      ({ success := false, token := none, user := none
         message := "Invalid or expired OTP code" }, st)
  | some _ =>
      match st.users.find? (fun u => u.email == toLowerStr email) with
      | none =>
          ({ success := false, token := none, user := none
             message := "User not found" }, st)
      | some user =>
          if user.status ≠ "active" then
            ({ success := false, token := none, user := none
               message := "Account is inactive" }, st)
          else
            let otps := setVerifiedFirst (otpMatches email code now) st.otps
            let user' := { user with lastLogin := some now, emailVerified := true }
            let users := saveUser user' st.users
            let token := generateAccessToken cfg user' now
            let _refreshToken := generateRefreshToken cfg user' now
            ({ success := true, token := some token, user := some user'
               message := "Login successful" },
             { st with otps := otps, users := users })

/-- `AuthService.logout(token)`: decode (no signature check), require a
present non-zero `exp` claim, insert into the blacklist; a duplicate-key
error (code 11000) from the unique index on `token` is absorbed. -/
def logout (tok : RawToken) (blacklist : List BlacklistEntry) :
    SimpleResult × List BlacklistEntry :=
  match jwtDecode tok with
  | none => ({ success := false, message := "Invalid token" }, blacklist)
  | some t =>
      if t.exp = 0 then
        ({ success := false, message := "Invalid token" }, blacklist)
      else if blacklist.any (fun e => e.token == tok) then
        ({ success := true, message := "Logout successful" }, blacklist)
      else
        ({ success := true, message := "Logout successful" },
         blacklist ++ [{ token := tok, expiresAt := t.exp }])

/-- `AuthService.isTokenBlacklisted(token)`: a record for this exact token
string with `expiresAt > now` exists. -/
def isTokenBlacklisted (blacklist : List BlacklistEntry) (tok : RawToken)
    (now : Nat) : Bool :=
  blacklist.any fun e => e.token == tok && decide (now < e.expiresAt)

/-- `AuthService.getUserFromToken(token)`: `verifyAccessToken` composed
with `User.findById`; any failure yields `null`. -/
def getUserFromToken (cfg : AuthConfig) (st : AuthState) (tok : RawToken)
    (now : Nat) : Option UserRec :=
  match verifyAccessToken cfg tok now with
  | .error _ => none
  | .ok p => st.users.find? fun u => u.id == p.userId

/-- The outcomes of the `authenticate` middleware, one per early return. -/
inductive AuthOutcome where
  | missingToken
  | revoked
  | invalidToken
  | userNotFound
  | inactive
  | ok (user : UserRec)
deriving DecidableEq

/-- The `authenticate` middleware: bearer-header presence, blacklist
check, `verifyAccessToken`, `User.findById`, active check — in that
order.  `header` is the token extracted from the `Authorization: Bearer`
header when one is present. -/
def authenticate (cfg : AuthConfig) (st : AuthState)
    (header : Option RawToken) (now : Nat) : AuthOutcome :=
  match header with
  | none => .missingToken
  | some tok =>
      if isTokenBlacklisted st.blacklist tok now then .revoked
      else
        match verifyAccessToken cfg tok now with
        | .error _ => .invalidToken
        | .ok p =>
            match st.users.find? (fun u => u.id == p.userId) with
            | none => .userNotFound
            | some user =>
                if user.status ≠ "active" then .inactive
                else .ok user

/-- The single failure value `verifyOTPCode` returns whenever its OTP
lookup finds no matching record. -/
def invalidOTPResponse : IAuthResponse :=
  { success := false, token := none, user := none
    message := "Invalid or expired OTP code" }

/-- Number of unconsumed code records stored for `email`. -/
def countActive (email : String) (otps : List OTPRecord) : Nat :=
  (otps.filter fun r => r.email == email && r.verified == false).length

/-- Number of unconsumed records stored for the pair `(email, code)`. -/
def countUnconsumed (email code : String) (otps : List OTPRecord) : Nat :=
  (otps.filter fun r =>
    r.email == email && r.code == code && r.verified == false).length

/-- Number of blacklist records for one exact token string. -/
def countBlacklisted (tok : RawToken) (blacklist : List BlacklistEntry) : Nat :=
  (blacklist.filter fun e => e.token == tok).length

/-- A run of `sendOTPCode` calls: each element carries the email, the
random code draw and the instant of the call. -/
def runSends (ops : List (String × String × Nat)) (st : AuthState) :
    AuthState :=
  ops.foldl (fun s op => (sendOTPCode op.1 op.2.1 op.2.2 s).2) st

/-! ## Concrete data used by witnesses and counterexamples -/

/-- A configuration with two distinct secrets and the default lifetimes
(24 h and 7 d in milliseconds). -/
def demoCfg : AuthConfig :=
  { jwtSecret := "as", jwtRefreshSecret := "rs"
    jwtExpire := 86400000, jwtRefreshExpire := 604800000 }

/-- An active citizen account. -/
def demoUser : UserRec :=
  { id := "u1", email := "a@b.rw", role := "citizen", status := "active"
    lastLogin := none, emailVerified := false }

/-- An unconsumed code for `demoUser`, expiring at instant 300000. -/
def demoOTP : OTPRecord :=
  { email := "a@b.rw", code := "123456", expiresAt := 300000, verified := false }

/-- Storage holding `demoOTP` and `demoUser`, empty blacklist. -/
def demoState : AuthState :=
  { otps := [demoOTP], users := [demoUser], blacklist := [] }

/-- Storage holding `demoOTP` but no user account at all. -/
def noUserState : AuthState :=
  { otps := [demoOTP], users := [], blacklist := [] }

/-- `demoUser` after a successful login at instant 0. -/
def demoUserAfterLogin : UserRec :=
  { demoUser with lastLogin := some 0, emailVerified := true }

/-- The access token issued to `demoUser` at instant 0. -/
def demoAccessToken : Token := generateAccessToken demoCfg demoUser 0

/-! ## Helper lemmas -/

/-- When the OTP lookup finds nothing, `verifyOTPCode` returns the uniform
failure and leaves the state untouched. -/
theorem verifyOTPCode_of_find_none (cfg : AuthConfig) (st : AuthState)
    (E C : String) (now : Nat)
    (h : st.otps.find? (otpMatches E C now) = none) :
    verifyOTPCode cfg E C now st = (invalidOTPResponse, st) := by
  simp [verifyOTPCode, h, invalidOTPResponse]

/-! ## Claims -/

/-- Claim C8: under the precondition that the access and refresh secrets
are distinct, a token produced by `generateRefreshToken` always fails
`verifyAccessToken`, and a token produced by `generateAccessToken` always
fails `verifyRefreshToken`. -/
theorem token_kind_isolation (cfg : AuthConfig)
    (hsec : cfg.jwtSecret ≠ cfg.jwtRefreshSecret) (u : UserRec)
    (iat now : Nat) :
    verifyAccessToken cfg (.wellFormed (generateRefreshToken cfg u iat)) now
      = .error "Invalid or expired token" ∧
    verifyRefreshToken cfg (.wellFormed (generateAccessToken cfg u iat)) now
      = .error "Invalid or expired refresh token" := by
  refine ⟨?_, ?_⟩ <;>
    simp [verifyAccessToken, verifyRefreshToken, jwtVerify,
      generateAccessToken, generateRefreshToken, hsec, Ne.symm hsec]

/-- Witness for C8 at a concrete configuration and user. -/
theorem token_kind_isolation_witness :
    demoCfg.jwtSecret ≠ demoCfg.jwtRefreshSecret ∧
    (verifyAccessToken demoCfg
        (.wellFormed (generateRefreshToken demoCfg demoUser 0)) 0
      = .error "Invalid or expired token" ∧
     verifyRefreshToken demoCfg
        (.wellFormed (generateAccessToken demoCfg demoUser 0)) 0
      = .error "Invalid or expired refresh token") :=
  ⟨by decide, token_kind_isolation demoCfg (by decide) demoUser 0 0⟩

/-- Claim C9: `verifyOTPCode` returns one and the same
`InvalidOrExpiredCode` failure value — and leaves the state unchanged —
in all four code-related failure situations: no code ever issued for the
email, wrong code, already-consumed code, and expired code. -/
theorem verifyOTPCode_uniform_failure (cfg : AuthConfig) (st : AuthState)
    (E C : String) (now : Nat) :
    ((∀ r ∈ st.otps, r.email ≠ E) →
       verifyOTPCode cfg E C now st = (invalidOTPResponse, st)) ∧
    ((∀ r ∈ st.otps, r.email = E → r.code ≠ C) →
       verifyOTPCode cfg E C now st = (invalidOTPResponse, st)) ∧
    ((∀ r ∈ st.otps, r.email = E → r.code = C → r.verified = true) →
       verifyOTPCode cfg E C now st = (invalidOTPResponse, st)) ∧
    ((∀ r ∈ st.otps, r.email = E → r.code = C → r.expiresAt ≤ now) →
       verifyOTPCode cfg E C now st = (invalidOTPResponse, st)) := by
  refine ⟨fun h => ?_, fun h => ?_, fun h => ?_, fun h => ?_⟩ <;>
    (apply verifyOTPCode_of_find_none
     rw [List.find?_eq_none]
     intro r hr hmatch
     simp only [otpMatches, Bool.and_eq_true, beq_iff_eq,
       decide_eq_true_eq] at hmatch
     obtain ⟨⟨⟨he, hc⟩, hv⟩, hexp⟩ := hmatch)
  · exact h r hr he
  · exact h r hr he hc
  · exact absurd (h r hr he hc) (by simp [hv])
  · exact absurd (h r hr he hc) (Nat.not_le.mpr hexp)

/-- Witness for C9: at empty storage all four antecedents hold and the
verify call yields the uniform failure. -/
theorem verifyOTPCode_uniform_failure_witness :
    verifyOTPCode demoCfg "a@b.rw" "123456" 0
        { otps := [], users := [demoUser], blacklist := [] }
      = (invalidOTPResponse,
         { otps := [], users := [demoUser], blacklist := [] }) :=
  (verifyOTPCode_uniform_failure demoCfg
    { otps := [], users := [demoUser], blacklist := [] }
    "a@b.rw" "123456" 0).1 (by simp)

/-- Claim C5: a code issued at `issuedAt` (hence expiring at
`issuedAt + 5 min`) is rejected by any verify call at or after
`issuedAt + 5 min + 1 s`, with the uniform failure, even though email and
code match and the code was never consumed. -/
theorem otp_expiry (cfg : AuthConfig) (st : AuthState) (E C : String)
    (issuedAt now' : Nat)
    (hsent : ((sendOTPCode E C issuedAt st).1).success = true)
    (hlate : issuedAt + otpLifetime + 1000 ≤ now') :
    verifyOTPCode cfg E C now' (sendOTPCode E C issuedAt st).2
      = (invalidOTPResponse, (sendOTPCode E C issuedAt st).2) := by
  apply verifyOTPCode_of_find_none
  cases hfind : st.users.find? (fun u => u.email == toLowerStr E) with
  | none => simp [sendOTPCode, hfind] at hsent
  | some user =>
    by_cases hstat : user.status = "active"
    · have hstate : (sendOTPCode E C issuedAt st).2.otps
          = st.otps.filter (fun r => !(r.email == E && r.verified == false))
            ++ [{ email := E, code := C, expiresAt := issuedAt + otpLifetime,
                  verified := false }] := by
        simp [sendOTPCode, hfind, hstat]
      rw [hstate, List.find?_eq_none]
      intro r hr hmatch
      simp only [List.mem_append, List.mem_filter,
        List.mem_singleton] at hr
      simp only [otpMatches, Bool.and_eq_true, beq_iff_eq,
        decide_eq_true_eq] at hmatch
      obtain ⟨⟨⟨he, hc⟩, hv⟩, hexp⟩ := hmatch
      rcases hr with ⟨_, hkeep⟩ | rfl
      · simp [he, hv] at hkeep
      · have hexp' : now' < issuedAt + otpLifetime := hexp
        simp only [otpLifetime] at hexp' hlate
        omega
    · simp [sendOTPCode, hfind, hstat] at hsent

/-- Witness for C5: the code issued to `demoUser` at instant 0 is
rejected at instant 301000. -/
theorem otp_expiry_witness :
    verifyOTPCode demoCfg "a@b.rw" "654321" 301000
        (sendOTPCode "a@b.rw" "654321" 0 demoState).2
      = (invalidOTPResponse, (sendOTPCode "a@b.rw" "654321" 0 demoState).2) :=
  otp_expiry demoCfg demoState "a@b.rw" "654321" 0 301000 (by decide)
    (by decide)

/-- Claim C1 (code bug, evaluated at a concrete successful login):
`verifyOTPCode` returns a response whose only token is the access token —
the `IAuthResponse` record carries no refresh token, and in particular
its token field is not the refresh token that the source generates and
then drops. -/
theorem verifyOTPCode_omits_refresh_token :
    (verifyOTPCode demoCfg "a@b.rw" "123456" 0 demoState).1
      = { success := true
          token := some (generateAccessToken demoCfg demoUserAfterLogin 0)
          user := some demoUserAfterLogin
          message := "Login successful" } ∧
    (verifyOTPCode demoCfg "a@b.rw" "123456" 0 demoState).1.token
      ≠ some (generateRefreshToken demoCfg demoUserAfterLogin 0) := by
  exact ⟨by decide, by decide⟩

/-- Counterexample to claim C2: with a matching unconsumed, unexpired
code in storage but no user account, `verifyOTPCode` fails and leaves
the whole state — in particular the still-unconsumed record —
untouched. -/
theorem verifyOTPCode_no_consume_counterexample :
    noUserState.otps.find? (otpMatches "a@b.rw" "123456" 0) = some demoOTP ∧
    demoOTP.verified = false ∧
    (0:Nat) < demoOTP.expiresAt ∧
    (verifyOTPCode demoCfg "a@b.rw" "123456" 0 noUserState).1.success = false ∧
    (verifyOTPCode demoCfg "a@b.rw" "123456" 0 noUserState).2 = noUserState := by
  decide

/-- Claim C2 as amended: the OTP lookup does come first, but the record
found is marked consumed only when the user exists and is active; when
the user is absent or inactive the call fails with the state — and hence
the record — unchanged. -/
theorem verifyOTPCode_consumes_only_with_active_user (cfg : AuthConfig)
    (st : AuthState) (E C : String) (now : Nat) (r : OTPRecord)
    (hfind : st.otps.find? (otpMatches E C now) = some r) :
    (st.users.find? (fun v => v.email == toLowerStr E) = none →
       (verifyOTPCode cfg E C now st).1.success = false ∧
       (verifyOTPCode cfg E C now st).2 = st) ∧
    (∀ u, st.users.find? (fun v => v.email == toLowerStr E) = some u →
       u.status ≠ "active" →
       (verifyOTPCode cfg E C now st).1.success = false ∧
       (verifyOTPCode cfg E C now st).2 = st) ∧
    (∀ u, st.users.find? (fun v => v.email == toLowerStr E) = some u →
       u.status = "active" →
       (verifyOTPCode cfg E C now st).1.success = true ∧
       (verifyOTPCode cfg E C now st).2.otps
         = setVerifiedFirst (otpMatches E C now) st.otps) := by
  refine ⟨fun hu => ?_, fun u hu hs => ?_, fun u hu hs => ?_⟩
  · simp [verifyOTPCode, hfind, hu]
  · simp [verifyOTPCode, hfind, hu, hs]
  · simp [verifyOTPCode, hfind, hu, hs]

/-- Witness for the amended C2 at the concrete user-less state. -/
theorem verifyOTPCode_consumes_only_with_active_user_witness :
    (verifyOTPCode demoCfg "a@b.rw" "123456" 0 noUserState).1.success = false ∧
    (verifyOTPCode demoCfg "a@b.rw" "123456" 0 noUserState).2 = noUserState :=
  (verifyOTPCode_consumes_only_with_active_user demoCfg noUserState
      "a@b.rw" "123456" 0 demoOTP (by decide)).1 (by decide)

/-- Claim C10: for an access token with valid signature and unexpired,
`getUserFromToken` returns exactly the user found by the token's subject
id — with no blacklist consultation (the result is the same for every
blacklist content) and no status check — and returns `none` exactly when
that lookup finds nothing. -/
theorem getUserFromToken_ignores_revocation_and_status (cfg : AuthConfig)
    (st : AuthState) (t : Token) (now : Nat)
    (hsig : t.secret = cfg.jwtSecret) (hexp : now < t.exp) :
    getUserFromToken cfg st (.wellFormed t) now
      = st.users.find? (fun u => u.id == t.payload.userId) ∧
    (∀ bl, getUserFromToken cfg { st with blacklist := bl }
        (.wellFormed t) now
      = st.users.find? (fun u => u.id == t.payload.userId)) ∧
    (getUserFromToken cfg st (.wellFormed t) now = none ↔
      st.users.find? (fun u => u.id == t.payload.userId) = none) := by
  have hv : verifyAccessToken cfg (.wellFormed t) now = .ok t.payload := by
    simp [verifyAccessToken, jwtVerify, hsig, Nat.not_le.mpr hexp]
  refine ⟨?_, fun bl => ?_, ?_⟩ <;> simp [getUserFromToken, hv]

/-- Witness for C10 at the demo token and state. -/
theorem getUserFromToken_witness :
    demoAccessToken.secret = demoCfg.jwtSecret ∧
    (0:Nat) < demoAccessToken.exp ∧
    getUserFromToken demoCfg demoState (.wellFormed demoAccessToken) 0
      = demoState.users.find?
          (fun u => u.id == demoAccessToken.payload.userId) :=
  ⟨rfl, by decide,
   (getUserFromToken_ignores_revocation_and_status demoCfg demoState
     demoAccessToken 0 rfl (by decide)).1⟩

theorem countActive_append (E : String) (l m : List OTPRecord) :
    countActive E (l ++ m) = countActive E l + countActive E m := by
  simp [countActive, List.filter_append]

/-- Effect of `deleteMany({ email, verified: false })` on the number of
unconsumed codes per email: the target email drops to zero, every other
email is untouched. -/
theorem countActive_filter_deleteMany (e E : String) (l : List OTPRecord) :
    countActive E (l.filter fun r => !(r.email == e && r.verified == false))
      = if E = e then 0 else countActive E l := by
  rw [countActive, countActive, List.filter_filter]
  by_cases he : E = e
  · subst he
    rw [if_pos rfl, List.length_eq_zero, List.filter_eq_nil_iff]
    intro a _ hcontra
    rw [Bool.and_eq_true] at hcontra
    exact absurd hcontra.2 (by rw [hcontra.1]; simp)
  · rw [if_neg he]
    refine congrArg List.length (List.filter_congr ?_)
    intro a _
    cases hp : (a.email == E && a.verified == false) with
    | false => simp
    | true =>
      simp only [Bool.and_eq_true, beq_iff_eq] at hp
      have hne : (a.email == e) = false := by
        rw [hp.1]
        exact beq_eq_false_iff_ne.mpr he
      simp [hne]

/-- One `sendOTPCode` call keeps the per-email unconsumed-code count at
or below `max` of its old value and 1. -/
theorem countActive_sendOTPCode (e c E : String) (now : Nat)
    (st : AuthState) :
    countActive E ((sendOTPCode e c now st).2.otps)
      ≤ max (countActive E st.otps) 1 := by
  cases hfind : st.users.find? (fun u => u.email == toLowerStr e) with
  | none => simp [sendOTPCode, hfind]
  | some user =>
    by_cases hstat : user.status = "active"
    · have hstate : (sendOTPCode e c now st).2.otps
          = st.otps.filter (fun r => !(r.email == e && r.verified == false))
            ++ [{ email := e, code := c, expiresAt := now + otpLifetime,
                  verified := false }] := by
        simp [sendOTPCode, hfind, hstat]
      rw [hstate, countActive_append, countActive_filter_deleteMany]
      by_cases he : E = e
      · subst he
        have h1 : countActive E
            [{ email := E, code := c, expiresAt := now + otpLifetime,
               verified := false }] = 1 := by
          simp [countActive]
        rw [if_pos rfl, h1]
        exact le_max_right _ 1
      · have h0 : countActive E
            [{ email := e, code := c, expiresAt := now + otpLifetime,
               verified := false }] = 0 := by
          have hne : (e == E) = false := beq_eq_false_iff_ne.mpr (Ne.symm he)
          simp [countActive, hne]
        rw [if_neg he, h0]
        simp
    · simp [sendOTPCode, hfind, hstat]

/-- The `countActive ≤ 1` invariant is preserved by any run of
`sendOTPCode` calls. -/
theorem runSends_preserves_single_active (E : String)
    (ops : List (String × String × Nat)) :
    ∀ st : AuthState, countActive E st.otps ≤ 1 →
      countActive E (runSends ops st).otps ≤ 1 := by
  induction ops with
  | nil => intro st h; simpa [runSends] using h
  | cons op ops ih =>
    intro st h
    have hstep := countActive_sendOTPCode op.1 op.2.1 E op.2.2 st
    have hone : countActive E ((sendOTPCode op.1 op.2.1 op.2.2 st).2.otps)
        ≤ 1 := le_trans hstep (max_le h le_rfl)
    exact ih _ hone

/-- Claim C4: starting from storage where email `E` has at most one
unconsumed code, after any sequence of `sendOTPCode` calls (to any
emails, with any code draws and instants) at most one unconsumed code
record for `E` exists, because every send first deletes all existing
unconsumed codes for its email before creating the new one. -/
theorem single_active_code (E : String) (st : AuthState)
    (hinv : countActive E st.otps ≤ 1)
    (ops : List (String × String × Nat)) :
    countActive E (runSends ops st).otps ≤ 1 :=
  runSends_preserves_single_active E ops st hinv

/-- Witness for C4: two successive sends to the demo account leave at
most one unconsumed code. -/
theorem single_active_code_witness :
    countActive "a@b.rw" demoState.otps ≤ 1 ∧
    countActive "a@b.rw"
      (runSends [("a@b.rw", "111111", 10), ("a@b.rw", "222222", 20)]
        demoState).otps ≤ 1 :=
  ⟨by decide,
   single_active_code "a@b.rw" demoState (by decide)
     [("a@b.rw", "111111", 10), ("a@b.rw", "222222", 20)]⟩

theorem countUnconsumed_cons_le (E C : String) (a : OTPRecord)
    (l : List OTPRecord) :
    countUnconsumed E C l ≤ countUnconsumed E C (a :: l) := by
  rw [countUnconsumed, countUnconsumed, List.filter_cons]
  split <;> simp

/-- Storage holding no unconsumed record for `(E, C)` makes the verify
lookup fail at every instant. -/
theorem find?_none_of_countUnconsumed_zero (E C : String) (now : Nat)
    (l : List OTPRecord) (h : countUnconsumed E C l = 0) :
    l.find? (otpMatches E C now) = none := by
  rw [List.find?_eq_none]
  intro r hr hmatch
  rw [countUnconsumed, List.length_eq_zero, List.filter_eq_nil_iff] at h
  simp only [otpMatches, Bool.and_eq_true] at hmatch
  exact h r hr (by simp only [Bool.and_eq_true]; exact hmatch.1)

/-- After the first record matching the verify filter is marked consumed,
no record matches the filter at any instant `now' ≥ now` — provided the
storage held at most one unconsumed record for `(E, C)`. -/
theorem setVerifiedFirst_no_rematch (E C : String) (now now' : Nat)
    (l : List OTPRecord) (hle : now ≤ now') :
    countUnconsumed E C l ≤ 1 →
    (l.find? (otpMatches E C now)).isSome = true →
    (setVerifiedFirst (otpMatches E C now) l).find? (otpMatches E C now')
      = none := by
  induction l with
  | nil => intro _ hfound; simp at hfound
  | cons a l ih =>
    intro hcount hfound
    cases ha : otpMatches E C now a with
    | true =>
      rw [setVerifiedFirst, if_pos ha, List.find?_eq_none]
      intro r hr hmatch
      rcases List.mem_cons.mp hr with rfl | hrl
      · simp [otpMatches] at hmatch
      · have ha1 : (a.email == E && a.code == C && a.verified == false)
            = true := by
          simp only [otpMatches, Bool.and_eq_true] at ha
          simp only [Bool.and_eq_true]
          exact ha.1
        have hc0 : countUnconsumed E C l = 0 := by
          have hcons : countUnconsumed E C (a :: l)
              = countUnconsumed E C l + 1 := by
            rw [countUnconsumed, countUnconsumed, List.filter_cons,
              if_pos ha1]
            simp
          omega
        have hnone := find?_none_of_countUnconsumed_zero E C now' l hc0
        rw [List.find?_eq_none] at hnone
        exact hnone r hrl hmatch
    | false =>
      have ha' : otpMatches E C now' a = false := by
        cases ha2 : otpMatches E C now' a with
        | false => rfl
        | true =>
          exfalso
          simp only [otpMatches, Bool.and_eq_true, decide_eq_true_eq] at ha2
          have : otpMatches E C now a = true := by
            simp only [otpMatches, Bool.and_eq_true, decide_eq_true_eq]
            exact ⟨ha2.1, Nat.lt_of_le_of_lt hle ha2.2⟩
          rw [this] at ha
          cases ha
      rw [setVerifiedFirst, if_neg (by simp [ha])]
      have hfound' : (l.find? (otpMatches E C now)).isSome = true := by
        rw [List.find?_cons, ha] at hfound
        exact hfound
      have hcount' : countUnconsumed E C l ≤ 1 :=
        le_trans (countUnconsumed_cons_le E C a l) hcount
      rw [List.find?_cons, ha']
      exact ih hcount' hfound'

/-- Claim C3: once a `verifyOTPCode(E, C)` call has succeeded — consuming
the matching record — every later `verifyOTPCode(E, C)` call returns the
uniform `InvalidOrExpiredCode` failure and leaves the state unchanged
(so all further calls keep failing); the storage is assumed to hold at
most one unconsumed record for `(E, C)`, the invariant `sendOTPCode`
maintains. -/
theorem otp_single_use (cfg : AuthConfig) (st : AuthState) (E C : String)
    (now now' : Nat) (hle : now ≤ now')
    (hcount : countUnconsumed E C st.otps ≤ 1)
    (hsucc : (verifyOTPCode cfg E C now st).1.success = true) :
    (verifyOTPCode cfg E C now' (verifyOTPCode cfg E C now st).2).1
      = invalidOTPResponse ∧
    (verifyOTPCode cfg E C now' (verifyOTPCode cfg E C now st).2).2
      = (verifyOTPCode cfg E C now st).2 := by
  cases hfind : st.otps.find? (otpMatches E C now) with
  | none =>
    rw [verifyOTPCode_of_find_none cfg st E C now hfind] at hsucc
    simp [invalidOTPResponse] at hsucc
  | some r =>
    cases huser : st.users.find? (fun v => v.email == toLowerStr E) with
    | none => simp [verifyOTPCode, hfind, huser] at hsucc
    | some u =>
      by_cases hstat : u.status = "active"
      · have hotps : ((verifyOTPCode cfg E C now st).2).otps
            = setVerifiedFirst (otpMatches E C now) st.otps := by
          simp [verifyOTPCode, hfind, huser, hstat]
        have hnone : ((verifyOTPCode cfg E C now st).2).otps.find?
            (otpMatches E C now') = none := by
          rw [hotps]
          exact setVerifiedFirst_no_rematch E C now now' st.otps hle hcount
            (by rw [hfind]; rfl)
        rw [verifyOTPCode_of_find_none cfg _ E C now' hnone]
        exact ⟨rfl, rfl⟩
      · simp [verifyOTPCode, hfind, huser, hstat] at hsucc

/-- Witness for C3: after the demo login consumes the code, re-presenting
the same code at instant 1000 yields the uniform failure. -/
theorem otp_single_use_witness :
    countUnconsumed "a@b.rw" "123456" demoState.otps ≤ 1 ∧
    (verifyOTPCode demoCfg "a@b.rw" "123456" 0 demoState).1.success = true ∧
    (verifyOTPCode demoCfg "a@b.rw" "123456" 1000
        (verifyOTPCode demoCfg "a@b.rw" "123456" 0 demoState).2).1
      = invalidOTPResponse :=
  ⟨by decide, by decide,
   (otp_single_use demoCfg demoState "a@b.rw" "123456" 0 1000 (by decide)
     (by decide) (by decide)).1⟩

/-- Claim C7: for a decodable token (non-zero `exp` claim), two
successive `logout` calls both succeed — the second call's duplicate-key
error being absorbed — and leave exactly one blacklist record for that
token string; the starting blacklist respects the unique index. -/
theorem logout_idempotent (bl : List BlacklistEntry) (tok : RawToken)
    (t : Token) (hdec : jwtDecode tok = some t) (hexp : t.exp ≠ 0)
    (huniq : countBlacklisted tok bl ≤ 1) :
    (logout tok bl).1.success = true ∧
    (logout tok (logout tok bl).2).1.success = true ∧
    countBlacklisted tok (logout tok (logout tok bl).2).2 = 1 := by
  cases hmem : bl.any (fun e => e.token == tok) with
  | true =>
    have hstate : logout tok bl
        = ({ success := true, message := "Logout successful" }, bl) := by
      simp [logout, hdec, hexp, hmem]
    have hstate2 : logout tok (logout tok bl).2
        = ({ success := true, message := "Logout successful" }, bl) := by
      rw [hstate]
      simp [logout, hdec, hexp, hmem]
    have h1 : 1 ≤ countBlacklisted tok bl := by
      rw [List.any_eq_true] at hmem
      obtain ⟨e, he, hpe⟩ := hmem
      rw [countBlacklisted]
      exact List.length_pos.mpr
        (List.ne_nil_of_mem (List.mem_filter.mpr ⟨he, hpe⟩))
    refine ⟨by rw [hstate], by rw [hstate2], ?_⟩
    rw [hstate2]
    show countBlacklisted tok bl = 1
    omega
  | false =>
    have hc0 : countBlacklisted tok bl = 0 := by
      rw [countBlacklisted, List.length_eq_zero, List.filter_eq_nil_iff]
      rw [List.any_eq_false] at hmem
      exact hmem
    have hstate : logout tok bl
        = ({ success := true, message := "Logout successful" },
           bl ++ [{ token := tok, expiresAt := t.exp }]) := by
      simp [logout, hdec, hexp, hmem]
    have hmem2 : (bl ++ [({ token := tok, expiresAt := t.exp }
        : BlacklistEntry)]).any (fun e => e.token == tok) = true := by
      rw [List.any_eq_true]
      refine ⟨{ token := tok, expiresAt := t.exp }, ?_, ?_⟩
      · exact List.mem_append_right _ (List.mem_singleton_self _)
      · simp
    have hstate2 : logout tok (logout tok bl).2
        = ({ success := true, message := "Logout successful" },
           bl ++ [{ token := tok, expiresAt := t.exp }]) := by
      rw [hstate]
      simp [logout, hdec, hexp, hmem2]
    refine ⟨by rw [hstate], by rw [hstate2], ?_⟩
    rw [hstate2]
    show countBlacklisted tok
        (bl ++ [{ token := tok, expiresAt := t.exp }]) = 1
    have hsplit : countBlacklisted tok
        (bl ++ [{ token := tok, expiresAt := t.exp }])
        = countBlacklisted tok bl
          + countBlacklisted tok [{ token := tok, expiresAt := t.exp }] := by
      simp [countBlacklisted, List.filter_append]
    rw [hsplit, hc0]
    simp [countBlacklisted]

/-- Witness for C7 on an empty blacklist and the demo access token. -/
theorem logout_idempotent_witness :
    (logout (.wellFormed demoAccessToken) []).1.success = true ∧
    (logout (.wellFormed demoAccessToken)
        (logout (.wellFormed demoAccessToken) []).2).1.success = true ∧
    countBlacklisted (.wellFormed demoAccessToken)
        (logout (.wellFormed demoAccessToken)
          (logout (.wellFormed demoAccessToken) []).2).2 = 1 :=
  logout_idempotent [] (.wellFormed demoAccessToken) demoAccessToken rfl
    (by decide) (by decide)

/-- Claim C6: for an access token whose expiry is still in the future,
`logout` succeeds, the token's signature and expiry would still verify,
yet the `authenticate` middleware rejects it as revoked; moreover any
token the blacklist currently holds unexpired is rejected as revoked
outright — the blacklist is consulted before signature verification.
Stored blacklist entries are assumed to carry the expiry of the token
they record, as every `logout` writes them. -/
theorem revoked_token_rejected (cfg : AuthConfig) (st : AuthState)
    (t : Token) (now : Nat)
    (hsig : t.secret = cfg.jwtSecret) (hexp : now < t.exp)
    (hwf : ∀ e ∈ st.blacklist, ∀ t', e.token = RawToken.wellFormed t' →
             e.expiresAt = t'.exp) :
    (logout (.wellFormed t) st.blacklist).1.success = true ∧
    verifyAccessToken cfg (.wellFormed t) now = .ok t.payload ∧
    authenticate cfg
        { st with blacklist := (logout (.wellFormed t) st.blacklist).2 }
        (some (.wellFormed t)) now = .revoked ∧
    (∀ tok', isTokenBlacklisted st.blacklist tok' now = true →
       authenticate cfg st (some tok') now = .revoked) := by
  have hexp0 : t.exp ≠ 0 := by omega
  have hbl : isTokenBlacklisted (logout (.wellFormed t) st.blacklist).2
      (.wellFormed t) now = true := by
    cases hmem : st.blacklist.any
        (fun e => e.token == RawToken.wellFormed t) with
    | true =>
      have hstate : (logout (.wellFormed t) st.blacklist).2
          = st.blacklist := by
        simp [logout, jwtDecode, hexp0, hmem]
      rw [hstate, isTokenBlacklisted, List.any_eq_true]
      rw [List.any_eq_true] at hmem
      obtain ⟨e, he, hpe⟩ := hmem
      have het : e.token = RawToken.wellFormed t := by simpa using hpe
      exact ⟨e, he, by simp [het, hwf e he t het, hexp]⟩
    | false =>
      have hstate : (logout (.wellFormed t) st.blacklist).2
          = st.blacklist
            ++ [{ token := .wellFormed t, expiresAt := t.exp }] := by
        simp [logout, jwtDecode, hexp0, hmem]
      rw [hstate, isTokenBlacklisted, List.any_eq_true]
      refine ⟨{ token := .wellFormed t, expiresAt := t.exp }, ?_, ?_⟩
      · exact List.mem_append_right _ (List.mem_singleton_self _)
      · simp [hexp]
  refine ⟨?_, ?_, ?_, fun tok' hb => ?_⟩
  · cases hmem : st.blacklist.any
        (fun e => e.token == RawToken.wellFormed t) <;>
      simp [logout, jwtDecode, hexp0, hmem]
  · simp [verifyAccessToken, jwtVerify, hsig, Nat.not_le.mpr hexp]
  · simp [authenticate, hbl]
  · simp [authenticate, hb]

/-- Witness for C6 at the demo token, empty blacklist, instant 0. -/
theorem revoked_token_rejected_witness :
    (logout (.wellFormed demoAccessToken) demoState.blacklist).1.success
      = true ∧
    authenticate demoCfg
        { demoState with
            blacklist := (logout (.wellFormed demoAccessToken)
              demoState.blacklist).2 }
        (some (.wellFormed demoAccessToken)) 0 = .revoked :=
  have h := revoked_token_rejected demoCfg demoState demoAccessToken 0 rfl
    (by decide) (by simp [demoState])
  ⟨h.1, h.2.2.1⟩

end Rugalika
